import Mathlib

/-
  Shallow embedding of the address-propensity repository's core domain
  (value objects, classification engine, repository layer and ingestion
  pipeline), translated from the Rust sources under src/.  Strings are
  modelled as `List Char`; fallible constructors return `Option` or
  `Except`; the relational store is modelled as in-memory lists with the
  same natural-key lookup and append-only insert semantics the SQL
  queries implement.  Storage-layer I/O failures (connection loss,
  commit failure) are external effects outside the embedding: the store
  operations here are total, matching the fault-free paths of the code.
-/

namespace AddressPropensity

/-- ASCII digit, the `\d` character class as used on this repository's
ASCII zip/APN data. -/
def isDigitCh (c : Char) : Bool := '0' ≤ c && c ≤ '9'

/-- ASCII whitespace, the `\s` character class of the land-use patterns. -/
def isWsCh (c : Char) : Bool :=
  c = ' ' || c = '\t' || c = '\n' || c = '\r' || c = '\x0b' || c = '\x0c'

/-- ASCII word character, the `\w` class of the loader's `RE_APN`. -/
def isWordCh (c : Char) : Bool :=
  isDigitCh c || ('a' ≤ c && c ≤ 'z') || ('A' ≤ c && c ≤ 'Z') || c = '_'

/-! ## ZipOrPostalCode (src/core/domain/address.rs)

`RE_ZIP_CODE = ^\d{5}$`; `ZipOrPostalCode::new` validates the raw string
against it and stores it unchanged; `Display` prints the stored code. -/

/-- The anchored regex `^\d{5}$` from address.rs: the whole string is
exactly five digits. -/
def zipCodeMatches (s : List Char) : Bool :=
  s.length = 5 && s.all isDigitCh

structure ZipOrPostalCode where
  code : List Char
deriving DecidableEq

/-- `ZipOrPostalCode::new`: validate against `RE_ZIP_CODE`, keep the raw
string on success. -/
def ZipOrPostalCode.new (s : List Char) : Option ZipOrPostalCode :=
  if zipCodeMatches s then some ⟨s⟩ else none

/-- `Display for ZipOrPostalCode`: prints the stored code verbatim. -/
def ZipOrPostalCode.display (z : ZipOrPostalCode) : List Char := z.code

/-! ## AssessorParcelNumber (src/core/domain/mod.rs)

`RE_NUMERIC_APN = \d[\d-]*\d` (unanchored search); `check_apn` rejects
inputs with no match, strips `-` from the whole input, rejects stripped
forms longer than 14, and left-zero-pads shorter forms to width 14. -/

/-- `[\d-]*\d` matched at the start of the list: some possibly-empty
prefix of digits/hyphens followed by a digit. -/
def tailRun : List Char → Bool
  | [] => false
  | c :: cs => isDigitCh c || ((isDigitCh c || c = '-') && tailRun cs)

/-- `\d[\d-]*\d` matched at the start of the list. -/
def apnRunAt : List Char → Bool
  | [] => false
  | c :: cs => isDigitCh c && tailRun cs

/-- Unanchored search for `\d[\d-]*\d` (`Regex::is_match`). -/
def containsApnRun : List Char → Bool
  | [] => false
  | c :: cs => apnRunAt (c :: cs) || containsApnRun cs

/-- `apn.replace(&['-'][..], "")`: remove every hyphen. -/
def stripHyphens (s : List Char) : List Char :=
  s.filter (fun c => decide ¬(c = '-'))

/-- `format!("{:0>14}", reduced)`: left-pad with `'0'` to width 14. -/
def zeroPad14 (s : List Char) : List Char :=
  List.replicate (14 - s.length) '0' ++ s

/-- `AssessorParcelNumber::check_apn`, branch for branch: `none` models
the `Err(ValidationErrors)` outcomes. -/
def AssessorParcelNumber.check_apn (apn : List Char) : Option (List Char) :=
  if !containsApnRun apn then
    none
  else
    let reduced := stripHyphens apn
    if 14 < reduced.length then
      none
    else
      if reduced.length < 14 then some (zeroPad14 reduced) else some reduced

structure AssessorParcelNumber where
  apn : List Char
deriving DecidableEq

/-- `AssessorParcelNumber::new`: validate and canonicalize via `check_apn`. -/
def AssessorParcelNumber.new (s : List Char) : Option AssessorParcelNumber :=
  (AssessorParcelNumber.check_apn s).map (fun v => ⟨v⟩)

/-- Declarative reading of the spec's APN pattern sentence: the input
contains a substring `d₁ w d₂` with `d₁`, `d₂` digits and every
character of `w` a digit or hyphen (the contiguous run of digits and
hyphens of length ≥ 2 with a digit at each end). -/
def ContainsDigitRun (s : List Char) : Prop :=
  ∃ pre d₁ mid d₂ post,
    s = pre ++ d₁ :: (mid ++ d₂ :: post) ∧
    isDigitCh d₁ = true ∧ isDigitCh d₂ = true ∧
    ∀ c ∈ mid, isDigitCh c = true ∨ c = '-'

/-! ## PropensityScore (src/core/domain/propensity.rs)

`#[validate(range(min = 0))] pub score: u16` — the derived validator
checks the declared bounds only: a lower bound of 0 and no upper bound.
`PropensityScore::new` builds the struct and runs this validation. -/

/-- The declared lower bound of the `range` attribute on `score`. -/
def propensityScoreMin : Option Nat := some 0

/-- The declared upper bound of the `range` attribute on `score`: none. -/
def propensityScoreMax : Option Nat := none

/-- The validator crate's range check against the declared bounds. -/
def propensityRangeOk (v : Nat) : Bool :=
  (match propensityScoreMin with
   | some m => decide (m ≤ v)
   | none => true) &&
  (match propensityScoreMax with
   | some m => decide (v ≤ m)
   | none => true)

structure PropensityScore where
  score : Nat
deriving DecidableEq

/-- `PropensityScore::new`: build and validate.  The argument is a `u16`
value (a natural number below 2^16). -/
def PropensityScore.new (v : Nat) : Option PropensityScore :=
  if propensityRangeOk v then some ⟨v⟩ else none

/-! ## LandUseType classification (src/core/domain/mod.rs)

Each category owns a case-insensitive `RegexSet`; `TryFrom<&str>`
scans the fixed-priority `TYPE_PATTERNS` list and returns the first
category whose set matches anywhere in the input, or
`CoreError::UnrecognizedLandUseType(value)` if none does.  The patterns
use only literal (lowercase) text, `\s*`, `-?` and a trailing `s?`, so
they are embedded as token lists: a literal, a zero-or-more-whitespace
gap, or an optional single character.  Since a `\s*` gap is never
followed by a token that can start with whitespace, and `-?` consumes a
hyphen exactly when the regex must, the greedy matcher below decides
the same language as the source patterns; case-insensitivity is
modelled by lowercasing the input (the patterns are already
lowercase). -/

inductive Tok where
  | lit (s : List Char)
  | ws
  | opt (c : Char)

/-- Drop a maximal run of whitespace, the `\s*` gap. -/
def dropWs : List Char → List Char
  | [] => []
  | c :: cs => if isWsCh c then dropWs cs else c :: cs

/-- Match a token sequence at the start of the input. -/
def matchToksAt : List Tok → List Char → Bool
  | [], _ => true
  | Tok.lit s :: ts, cs =>
      if s.isPrefixOf cs then matchToksAt ts (cs.drop s.length) else false
  | Tok.ws :: ts, cs => matchToksAt ts (dropWs cs)
  | Tok.opt c :: ts, cs =>
      match cs with
      | [] => matchToksAt ts []
      | c₂ :: rest => if c₂ = c then matchToksAt ts rest else matchToksAt ts (c₂ :: rest)

/-- Unanchored search: the token sequence matches at some position. -/
def searchToks (p : List Tok) : List Char → Bool
  | [] => matchToksAt p []
  | c :: cs => matchToksAt p (c :: cs) || searchToks p cs

/-- `RegexSet::is_match`: some pattern of the set matches the input. -/
def setMatches (pats : List (List Tok)) (cs : List Char) : Bool :=
  pats.any (fun p => searchToks p cs)

inductive LandUseType where
  | CondominiumUnit
  | Duplex
  | MobileOrManufacturedHome
  | MultiFamilyDwellings
  | PlannedUnitDevelopment
  | Quadruplex
  | RuralOrAgriculturalResidence
  | SingleFamilyResidential
  | Townhouse
  | Triplex
  | VacationResidence
deriving DecidableEq

/-- `RE_CONDOMINIUM`: `condominium\s*unit`. -/
def reCondominium : List (List Tok) :=
  [[Tok.lit "condominium".toList, Tok.ws, Tok.lit "unit".toList]]

/-- `RE_DUPLEX`: `duplex`. -/
def reDuplex : List (List Tok) := [[Tok.lit "duplex".toList]]

/-- `RE_MOBILE_OR_MANUFACTURED`: the four mobile/manufactured patterns. -/
def reMobileOrManufactured : List (List Tok) :=
  [ [Tok.lit "mobile".toList, Tok.ws, Tok.lit "home".toList],
    [Tok.lit "manufactured".toList, Tok.ws, Tok.lit "home".toList],
    [Tok.lit "mobile".toList, Tok.ws, Tok.lit "or".toList, Tok.ws,
      Tok.lit "manufactured".toList, Tok.ws, Tok.lit "home".toList],
    [Tok.lit "manufactured".toList, Tok.ws, Tok.lit "or".toList, Tok.ws,
      Tok.lit "mobile".toList, Tok.ws, Tok.lit "home".toList] ]

/-- `RE_MULTI_FAMILY`: `multi\s*-?\s*family\s*dwellings?`,
`multi\s*-?\s*family\s*residential`, `multi\s*residential`. -/
def reMultiFamily : List (List Tok) :=
  [ [Tok.lit "multi".toList, Tok.ws, Tok.opt '-', Tok.ws,
      Tok.lit "family".toList, Tok.ws, Tok.lit "dwelling".toList, Tok.opt 's'],
    [Tok.lit "multi".toList, Tok.ws, Tok.opt '-', Tok.ws,
      Tok.lit "family".toList, Tok.ws, Tok.lit "residential".toList],
    [Tok.lit "multi".toList, Tok.ws, Tok.lit "residential".toList] ]

/-- `RE_PLANNED`: `planned\s*unit\s*development`, `planned\s*development`. -/
def rePlanned : List (List Tok) :=
  [ [Tok.lit "planned".toList, Tok.ws, Tok.lit "unit".toList, Tok.ws,
      Tok.lit "development".toList],
    [Tok.lit "planned".toList, Tok.ws, Tok.lit "development".toList] ]

/-- `RE_QUADRUPLEX`: `quadruplex`. -/
def reQuadruplex : List (List Tok) := [[Tok.lit "quadruplex".toList]]

/-- `RE_RURAL_OR_AGRICULTURAL`: the three rural/agricultural patterns. -/
def reRuralOrAgricultural : List (List Tok) :=
  [ [Tok.lit "rural".toList, Tok.ws, Tok.lit "or".toList, Tok.ws,
      Tok.lit "agricultural".toList, Tok.ws, Tok.lit "residence".toList],
    [Tok.lit "rural".toList, Tok.ws, Tok.lit "residence".toList],
    [Tok.lit "agricultural".toList, Tok.ws, Tok.lit "residence".toList] ]

/-- `RE_SINGLE_FAMILY`: `single\s*family\s*residential`,
`single\s*residential`. -/
def reSingleFamily : List (List Tok) :=
  [ [Tok.lit "single".toList, Tok.ws, Tok.lit "family".toList, Tok.ws,
      Tok.lit "residential".toList],
    [Tok.lit "single".toList, Tok.ws, Tok.lit "residential".toList] ]

/-- `RE_TOWNHOUSE`: `townhouse`. -/
def reTownhouse : List (List Tok) := [[Tok.lit "townhouse".toList]]

/-- `RE_TRIPLEX`: `triplex`. -/
def reTriplex : List (List Tok) := [[Tok.lit "triplex".toList]]

/-- `RE_VACATION`: `vacation\s*residence`. -/
def reVacation : List (List Tok) := [[Tok.lit "vacation".toList, Tok.ws, Tok.lit "residence".toList]]

/-- `TYPE_PATTERNS`: the fixed priority-ordered category/pattern list.
(The source keys the list by the category's `Display` string and maps
it back to the variant in a match with identical arms, which is the
identity; the list here pairs the variant directly.) -/
def typePatterns : List (LandUseType × List (List Tok)) :=
  [ (LandUseType.CondominiumUnit, reCondominium),
    (LandUseType.Duplex, reDuplex),
    (LandUseType.MobileOrManufacturedHome, reMobileOrManufactured),
    (LandUseType.MultiFamilyDwellings, reMultiFamily),
    (LandUseType.PlannedUnitDevelopment, rePlanned),
    (LandUseType.Quadruplex, reQuadruplex),
    (LandUseType.RuralOrAgriculturalResidence, reRuralOrAgricultural),
    (LandUseType.SingleFamilyResidential, reSingleFamily),
    (LandUseType.Townhouse, reTownhouse),
    (LandUseType.Triplex, reTriplex),
    (LandUseType.VacationResidence, reVacation) ]

/-- Case-insensitive match of one category's pattern set against the
input: lowercase the input, search each pattern. -/
def categoryMatches (pats : List (List Tok)) (s : List Char) : Bool :=
  setMatches pats (s.map Char.toLower)

/-- `TryFrom<&str> for LandUseType`: first category of `TYPE_PATTERNS`
whose set matches wins; no match is
`CoreError::UnrecognizedLandUseType(value)`, carrying the input. -/
def LandUseType.tryFrom (s : List Char) : Except (List Char) LandUseType :=
  match typePatterns.find? (fun tp => categoryMatches tp.2 s) with
  | some tp => Except.ok tp.1
  | none => Except.error s

/-! ## Address model (src/core/domain/address.rs)

Only the structure is needed by the claims (no claim touches the
display formatter beyond the zip round-trip above), so the remaining
value objects are embedded structurally with their upper-casing
constructors. -/

inductive StreetDirection where
  | None
  | Pre (p : List Char)
  | Post (s : List Char)
  | Both (p s : List Char)
deriving DecidableEq

/-- `StreetDirection::new` from the optional pre/post direction columns
(`Prefix`/`Suffix` variants are named `Pre`/`Post` here); each token is
upper-cased. -/
def StreetDirection.make (pre post : Option (List Char)) : StreetDirection :=
  match pre, post with
  | none, none => StreetDirection.None
  | some p, none => StreetDirection.Pre (p.map Char.toUpper)
  | none, some s => StreetDirection.Post (s.map Char.toUpper)
  | some p, some s => StreetDirection.Both (p.map Char.toUpper) (s.map Char.toUpper)

structure AddressLine where
  street_number : List Char
  street_name : List Char
  street_suffix : List Char
  street_direction : StreetDirection
deriving DecidableEq

/-- `AddressLine::new`: name and suffix are upper-cased, the number kept. -/
def AddressLine.make (number name sfx : List Char) (dir : StreetDirection) : AddressLine :=
  ⟨number, name.map Char.toUpper, sfx.map Char.toUpper, dir⟩

structure SecondaryAddressLine where
  designator : List Char
  number : List Char
deriving DecidableEq

/-- `SecondaryAddressLine::new`: both components upper-cased. -/
def SecondaryAddressLine.make (d n : List Char) : SecondaryAddressLine :=
  ⟨d.map Char.toUpper, n.map Char.toUpper⟩

structure City where
  name : List Char
deriving DecidableEq

/-- `City::new`: upper-cased. -/
def City.make (c : List Char) : City := ⟨c.map Char.toUpper⟩

structure StateOrRegion where
  name : List Char
deriving DecidableEq

/-- `StateOrRegion::new`: upper-cased. -/
def StateOrRegion.make (s : List Char) : StateOrRegion := ⟨s.map Char.toUpper⟩

structure CountryCode where
  iso_3166_alpha_3 : List Char
  official_name : List Char
deriving DecidableEq

/-- The `USA` singleton country code. -/
def USA : CountryCode := ⟨"USA".toList, "UNITED STATES OF AMERICA".toList⟩

structure Address where
  address_line : AddressLine
  secondary_address_line : Option SecondaryAddressLine
  city : City
  state_or_region : StateOrRegion
  zip_or_postal_code : ZipOrPostalCode
  locale : CountryCode
deriving DecidableEq

/-- `Address::new_in_usa`. -/
def Address.new_in_usa (line : AddressLine) (secondary : Option SecondaryAddressLine)
    (city : City) (state : StateOrRegion) (zip : ZipOrPostalCode) : Address :=
  ⟨line, secondary, city, state, zip, USA⟩

/-! ## Property and PropertyPropensityScore entities -/

/-- `bigdecimal::BigDecimal`, as an integer mantissa and decimal scale;
no claim computes with it, the pipeline only carries it. -/
structure BigDecimal where
  digits : Int
  scale : Int
deriving DecidableEq

structure GeoCoordinate where
  latitude : BigDecimal
  longitude : BigDecimal
deriving DecidableEq

structure Property where
  id : Option Nat
  apn : AssessorParcelNumber
  address : Address
  admin_division : List Char
  geo_coordinate : Option GeoCoordinate
  land_use_type : LandUseType
  area_sq_ft : Option Nat
  nr_bedrooms : Option Nat
  nr_bathrooms : Option BigDecimal
  total_area_sq_ft : Option Nat
deriving DecidableEq

structure PropertyPropensityScore where
  id : Option Nat
  apn : AssessorParcelNumber
  zip_or_postal_code : Option ZipOrPostalCode
  score : PropensityScore
deriving DecidableEq

/-! ## Repository layer

The two tables are in-memory lists of saved entities.  `find` is the
`SELECT ... WHERE apn = $1 LIMIT 1` point lookup (first row with that
natural key); `save` is the `INSERT ... RETURNING id` append, with the
serial id modelled as one past the current row count. -/

/-- `PropertyRecordRepository::find`. -/
def PropertyRecordRepository.find (store : List Property)
    (apn : AssessorParcelNumber) : Option Property :=
  store.find? (fun p => decide (p.apn = apn))

/-- `PropertyRecordRepository::save`: insert and return the record with
its assigned id. -/
def PropertyRecordRepository.save (store : List Property) (record : Property) :
    Property × List Property :=
  let saved := { record with id := some (store.length + 1) }
  (saved, store ++ [saved])

/-- `PropertyPropensityScoreRepository::find_for_apn`. -/
def PropertyPropensityScoreRepository.find_for_apn
    (store : List PropertyPropensityScore) (apn : AssessorParcelNumber) :
    Option PropertyPropensityScore :=
  store.find? (fun r => decide (r.apn = apn))

/-- `PropertyPropensityScoreRepository::save`. -/
def PropertyPropensityScoreRepository.save (store : List PropertyPropensityScore)
    (record : PropertyPropensityScore) :
    PropertyPropensityScore × List PropertyPropensityScore :=
  let saved := { record with id := some (store.length + 1) }
  (saved, store ++ [saved])

/-! ## Ranked lookup (find_address_scores_for_zip_code)

The SQL: `Propensities INNER JOIN Properties ON apn` filtered to the
requested zip, `ORDER BY score DESC`, `LIMIT`; the Rust mapping then
pairs each joined row's score with `Some(address)`.  SQL `=` on a NULL
zip column matches nothing, hence the `some zip` comparison. -/

/-- Insert into a list kept sorted by descending score. -/
def insertByScoreDesc (x : PropertyPropensityScore × Property) :
    List (PropertyPropensityScore × Property) → List (PropertyPropensityScore × Property)
  | [] => [x]
  | y :: ys =>
      if y.1.score.score < x.1.score.score then x :: y :: ys
      else y :: insertByScoreDesc x ys

/-- `ORDER BY Propensities.score DESC`. -/
def sortByScoreDesc : List (PropertyPropensityScore × Property) →
    List (PropertyPropensityScore × Property)
  | [] => []
  | x :: xs => insertByScoreDesc x (sortByScoreDesc xs)

/-- The inner join of the two tables on `apn`, restricted to the zip. -/
def joinOnApnForZip (props : List Property) (propens : List PropertyPropensityScore)
    (zip : ZipOrPostalCode) : List (PropertyPropensityScore × Property) :=
  (propens.filter (fun pr => decide (pr.zip_or_postal_code = some zip))).flatMap
    (fun pr => (props.filter (fun p => decide (p.apn = pr.apn))).map (fun p => (pr, p)))

/-- `PropertyPropensityScoreRepository::find_address_scores_for_zip_code`:
join, order descending by score, truncate to `limit`, and pair every
returned score with `Some` of the joined property's address. -/
def PropertyPropensityScoreRepository.find_address_scores_for_zip_code
    (props : List Property) (propens : List PropertyPropensityScore)
    (zip : ZipOrPostalCode) (limit : Nat) :
    List (PropertyPropensityScore × Option Address) :=
  ((sortByScoreDesc (joinOnApnForZip props propens zip)).take limit).map
    (fun x => (x.1, some x.2.address))

/-! ## Loader: CSV propensity rows (src/loader/domain/csv_propensity.rs) -/

structure CsvPropertyPropensityScore where
  apn : List Char
  street_number : Option (List Char)
  street_number_suffix : Option (List Char)
  street_pre_direction : Option (List Char)
  street_name : Option (List Char)
  street_suffix : Option (List Char)
  street_post_direction : Option (List Char)
  secondary_designator : Option (List Char)
  secondary_number : Option (List Char)
  city : Option (List Char)
  state_or_region : Option (List Char)
  zip_or_postal_code : Option (List Char)
  propensity_score : Option Nat
deriving DecidableEq

/-- Length of the longest prefix of characters in the `[\d\w-]` class. -/
def classRunLen : List Char → Nat
  | [] => 0
  | c :: cs => if isWordCh c || c = '-' then classRunLen cs + 1 else 0

/-- The loader's `RE_APN = [\d\w-]{7,}` (unanchored): some position
starts a run of at least 7 class characters. -/
def reApnMatches : List Char → Bool
  | [] => false
  | c :: cs => decide (7 ≤ classRunLen (c :: cs)) || reApnMatches cs

/-- `CsvPropertyPropensityScore::validate()`: the `regex = RE_APN`
check on `apn` plus `range(min = 0)` on the optional score (vacuous on
a `u16`, skipped when the score is absent). -/
def CsvPropertyPropensityScore.structValidate (r : CsvPropertyPropensityScore) : Bool :=
  reApnMatches r.apn &&
  (match r.propensity_score with
   | none => true
   | some v => propensityRangeOk v)

/-- `TryInto<Option<PropertyPropensityScore>>`: `None` score translates
to `Ok(None)`; otherwise extract the APN, the optional zip and the
validated score.  `Except.error ()` models `Err(LoaderError)` (the
error payload is opaque to the claims). -/
def CsvPropertyPropensityScore.tryIntoScore (r : CsvPropertyPropensityScore) :
    Except Unit (Option PropertyPropensityScore) :=
  match r.propensity_score with
  | none => Except.ok none
  | some v =>
    match AssessorParcelNumber.new r.apn with
    | none => Except.error ()
    | some apn =>
      match r.zip_or_postal_code with
      | none =>
        match PropensityScore.new v with
        | none => Except.error ()
        | some score => Except.ok (some ⟨none, apn, none, score⟩)
      | some zraw =>
        match ZipOrPostalCode.new zraw with
        | none => Except.error ()
        | some zip =>
          match PropensityScore.new v with
          | none => Except.error ()
          | some score => Except.ok (some ⟨none, apn, some zip, score⟩)

/-! ## Propensity ingestion pipeline (src/loader/propensity_loader.rs)

`QualityMeasure` and the per-row loop body of `load_propensity_data`
plus its `save_record`.  Failure lists keep just what the claims
inspect: row indices for the index-keyed buckets, the raw record for
save failures, the entity for the not-in-core-properties diagnostic.
The terminal states follow the spec's names; in this fault-free store
model the lookup-error and save-failure branches of the source are
unreachable (they fire only on storage I/O errors). -/

structure PropensityQuality where
  propensity_zips : List (PropensityScore × Option ZipOrPostalCode)
  deserialization_failures : List Nat
  validation_failures : List Nat
  save_failures : List CsvPropertyPropensityScore
  missing_scores : List Nat
  not_in_core_properties : List PropertyPropensityScore
deriving DecidableEq

/-- The empty `QualityMeasure::default()`. -/
def PropensityQuality.empty : PropensityQuality := ⟨[], [], [], [], [], []⟩

inductive RowOutcome where
  | saved
  | skippedDuplicate
  | skippedMissingScore
  | skippedDeserializationFailure
  | skippedValidationFailure
deriving DecidableEq

/-- State threaded through the propensity loop body: the propensity
table, the quality report and the skipped-row index list. -/
structure PropensityLoadState where
  store : List PropertyPropensityScore
  quality : PropensityQuality
  skipped : List Nat
deriving DecidableEq

/-- `save_record` of propensity_loader.rs: natural-key existence check,
then the cross-reference against core properties (whose failure only
adds the "not in core properties" diagnostic), then the save.  The
source signals `saved` by returning `true`; the outcome is made
explicit here. -/
def savePropensityRecord (record : PropertyPropensityScore) (idx : Nat)
    (props : List Property) (st : PropensityLoadState) :
    RowOutcome × PropensityLoadState :=
  match PropertyPropensityScoreRepository.find_for_apn st.store record.apn with
  | some found =>
      (RowOutcome.skippedDuplicate,
        { st with
            quality := { st.quality with
              propensity_zips :=
                st.quality.propensity_zips ++ [(found.score, found.zip_or_postal_code)] },
            skipped := st.skipped ++ [idx] })
  | none =>
      let matched := (PropertyRecordRepository.find props record.apn).isSome
      let quality₁ :=
        if matched then st.quality
        else { st.quality with
                not_in_core_properties := st.quality.not_in_core_properties ++ [record] }
      let saved := PropertyPropensityScoreRepository.save st.store record
      (RowOutcome.saved,
        { store := saved.2,
          quality := { quality₁ with
            propensity_zips :=
              quality₁.propensity_zips ++ [(record.score, record.zip_or_postal_code)] },
          skipped := st.skipped })

/-- One iteration of the `load_propensity_data` row loop, branch for
branch, with the row translator passed as a parameter (the source
invokes `TryInto`; a theorem below shows rows lacking a score never
reach it).  `row` is the csv reader's result: `Except.error ()` is a
parse failure.  `idx` is the 1-based row index. -/
def processPropensityRow
    (translate : CsvPropertyPropensityScore → Except Unit (Option PropertyPropensityScore))
    (row : Except Unit CsvPropertyPropensityScore) (idx : Nat)
    (props : List Property) (st : PropensityLoadState) :
    RowOutcome × PropensityLoadState :=
  match row with
  | Except.error _ =>
      (RowOutcome.skippedDeserializationFailure,
        { st with
            quality := { st.quality with
              deserialization_failures := st.quality.deserialization_failures ++ [idx] },
            skipped := st.skipped ++ [idx] })
  | Except.ok ingress =>
    if ingress.propensity_score.isNone then
      (RowOutcome.skippedMissingScore,
        { st with
            quality := { st.quality with
              missing_scores := st.quality.missing_scores ++ [idx] },
            skipped := st.skipped ++ [idx] })
    else if !ingress.structValidate then
      (RowOutcome.skippedValidationFailure,
        { st with
            quality := { st.quality with
              validation_failures := st.quality.validation_failures ++ [idx] },
            skipped := st.skipped ++ [idx] })
    else
      match translate ingress with
      | Except.error _ =>
          (RowOutcome.skippedDeserializationFailure,
            { st with
                quality := { st.quality with
                  deserialization_failures := st.quality.deserialization_failures ++ [idx] },
                skipped := st.skipped ++ [idx] })
      | Except.ok none =>
          (RowOutcome.skippedMissingScore,
            { st with
                quality := { st.quality with
                  missing_scores := st.quality.missing_scores ++ [idx] },
                skipped := st.skipped ++ [idx] })
      | Except.ok (some record) =>
          savePropensityRecord record idx props st

/-! ## Property ingestion (src/loader/property_loader.rs)

`save_record`: `find` by APN, skip when present, save when absent. -/

inductive PropertyRowOutcome where
  | saved
  | skippedDuplicate
deriving DecidableEq

/-- `save_record` of property_loader.rs over the fault-free store: the
`Err` lookup branch and the save-failure branch fire only on storage
I/O errors and are unreachable here. -/
def savePropertyRecord (record : Property) (store : List Property) :
    PropertyRowOutcome × List Property :=
  match PropertyRecordRepository.find store record.apn with
  | some _ => (PropertyRowOutcome.skippedDuplicate, store)
  | none => (PropertyRowOutcome.saved, (PropertyRecordRepository.save store record).2)

/-! ## Helper lemmas: the APN pattern matcher -/

theorem isDigitCh_ne_hyphen {c : Char} (h : isDigitCh c = true) : ¬c = '-' := by
  intro he
  subst he
  exact absurd h (by decide)

theorem tailRun_of_decomp : ∀ (stars : List Char) (d : Char) (post : List Char),
    (∀ c ∈ stars, isDigitCh c = true ∨ c = '-') → isDigitCh d = true →
    tailRun (stars ++ d :: post) = true := by
  intro stars
  induction stars with
  | nil => intro d post _ hd; simp [tailRun, hd]
  | cons c cs ih =>
      intro d post hcls hd
      have ht := ih d post (fun x hx => hcls x (List.mem_cons_of_mem c hx)) hd
      cases hcls c (List.mem_cons_self c cs) with
      | inl h => simp [tailRun, h, ht]
      | inr h => simp [tailRun, h, ht]

theorem decomp_of_tailRun : ∀ cs : List Char, tailRun cs = true →
    ∃ stars d post, cs = stars ++ d :: post ∧
      (∀ c ∈ stars, isDigitCh c = true ∨ c = '-') ∧ isDigitCh d = true := by
  intro cs
  induction cs with
  | nil => intro h; simp [tailRun] at h
  | cons c cs ih =>
      intro h
      cases hd : isDigitCh c with
      | true => exact ⟨[], c, cs, rfl, by simp, hd⟩
      | false =>
          simp only [tailRun, hd, Bool.false_or, Bool.and_eq_true,
            decide_eq_true_eq] at h
          obtain ⟨hc, ht⟩ := h
          obtain ⟨stars, d, post, he, hcls, hdd⟩ := ih ht
          refine ⟨c :: stars, d, post, by simp [he], ?_, hdd⟩
          intro x hx
          cases hx with
          | head => exact Or.inr hc
          | tail _ hx => exact hcls x hx

theorem containsApnRun_of_suffix : ∀ (l t : List Char), containsApnRun t = true →
    containsApnRun (l ++ t) = true := by
  intro l t h
  induction l with
  | nil => exact h
  | cons c cs ih => simp [containsApnRun, ih]

theorem digitRun_of_containsApnRun : ∀ s : List Char, containsApnRun s = true →
    ContainsDigitRun s := by
  intro s
  induction s with
  | nil => intro h; simp [containsApnRun] at h
  | cons c cs ih =>
      intro h
      simp only [containsApnRun, Bool.or_eq_true] at h
      cases h with
      | inl h =>
          simp only [apnRunAt, Bool.and_eq_true] at h
          obtain ⟨hd, ht⟩ := h
          obtain ⟨stars, d, post, he, hcls, hdd⟩ := decomp_of_tailRun cs ht
          exact ⟨[], c, stars, d, post, by simp [he], hd, hdd, hcls⟩
      | inr h =>
          obtain ⟨pre, d₁, mid, d₂, post, he, h1, h2, h3⟩ := ih h
          exact ⟨c :: pre, d₁, mid, d₂, post, by simp [he], h1, h2, h3⟩

theorem containsApnRun_of_digitRun : ∀ s : List Char, ContainsDigitRun s →
    containsApnRun s = true := by
  intro s h
  obtain ⟨pre, d₁, mid, d₂, post, he, h1, h2, h3⟩ := h
  subst he
  apply containsApnRun_of_suffix
  simp [containsApnRun, apnRunAt, h1, tailRun_of_decomp mid d₂ post h3 h2]

/-! ## Helper lemmas: hyphen stripping -/

theorem stripHyphens_append (l t : List Char) :
    stripHyphens (l ++ t) = stripHyphens l ++ stripHyphens t := by
  simp [stripHyphens]

theorem stripHyphens_cons_digit {c : Char} (h : isDigitCh c = true) (l : List Char) :
    stripHyphens (c :: l) = c :: stripHyphens l := by
  simp [stripHyphens, List.filter_cons, isDigitCh_ne_hyphen h]

theorem mem_stripHyphens {c : Char} {l : List Char} (h : c ∈ stripHyphens l) :
    c ∈ l :=
  List.mem_of_mem_filter h

theorem stripHyphens_ne_hyphen {c : Char} {l : List Char} (h : c ∈ stripHyphens l) :
    ¬c = '-' := by
  have := List.of_mem_filter h
  simpa using this

theorem stripHyphens_noHyphen {l : List Char} (h : ∀ c ∈ l, ¬c = '-') :
    stripHyphens l = l := by
  apply List.filter_eq_self.mpr
  intro c hc
  simpa using h c hc

theorem digitRun_strip {s : List Char} (h : ContainsDigitRun s) :
    ∀ front : List Char, ContainsDigitRun (front ++ stripHyphens s) := by
  obtain ⟨pre, d₁, mid, d₂, post, he, h1, h2, h3⟩ := h
  intro front
  subst he
  have hs : stripHyphens (pre ++ d₁ :: (mid ++ d₂ :: post))
      = stripHyphens pre ++ d₁ :: (stripHyphens mid ++ d₂ :: stripHyphens post) := by
    simp [stripHyphens_append, stripHyphens_cons_digit h1, stripHyphens_cons_digit h2]
  rw [hs]
  refine ⟨front ++ stripHyphens pre, d₁, stripHyphens mid, d₂, stripHyphens post,
    by simp, h1, h2, ?_⟩
  intro c hc
  exact h3 c (mem_stripHyphens hc)

/-! ## Helper lemmas: check_apn characterization -/

theorem check_apn_some {s : List Char} (h1 : containsApnRun s = true)
    (h2 : (stripHyphens s).length ≤ 14) :
    AssessorParcelNumber.check_apn s
      = some (List.replicate (14 - (stripHyphens s).length) '0' ++ stripHyphens s) := by
  have hnlt : ¬(14 < (stripHyphens s).length) := Nat.not_lt.mpr h2
  by_cases hlt : (stripHyphens s).length < 14
  · simp [AssessorParcelNumber.check_apn, h1, hnlt, hlt, zeroPad14]
  · have h14 : (stripHyphens s).length = 14 := Nat.le_antisymm h2 (Nat.not_lt.mp hlt)
    simp [AssessorParcelNumber.check_apn, h1, hnlt, hlt, h14]

theorem check_apn_none_nomatch {s : List Char} (h1 : containsApnRun s = false) :
    AssessorParcelNumber.check_apn s = none := by
  simp [AssessorParcelNumber.check_apn, h1]

theorem check_apn_none_long {s : List Char} (h2 : 14 < (stripHyphens s).length) :
    AssessorParcelNumber.check_apn s = none := by
  cases h1 : containsApnRun s with
  | false => exact check_apn_none_nomatch h1
  | true => simp [AssessorParcelNumber.check_apn, h1, h2]

theorem check_apn_some_inv {s v : List Char}
    (h : AssessorParcelNumber.check_apn s = some v) :
    containsApnRun s = true ∧ (stripHyphens s).length ≤ 14 ∧
      v = List.replicate (14 - (stripHyphens s).length) '0' ++ stripHyphens s := by
  cases hrun : containsApnRun s with
  | false => rw [check_apn_none_nomatch hrun] at h; cases h
  | true =>
      by_cases hlen : (stripHyphens s).length ≤ 14
      · rw [check_apn_some hrun hlen] at h
        exact ⟨rfl, hlen, (Option.some.inj h).symm⟩
      · rw [check_apn_none_long (Nat.lt_of_not_le hlen)] at h; cases h

/-! ## Sample concrete data used by witnesses and counterexamples -/

/-- A canonical 14-character APN. -/
def sampleApn : AssessorParcelNumber := ⟨"00000000001234".toList⟩

/-- A valid 5-digit zip code. -/
def sampleZip : ZipOrPostalCode := ⟨"75075".toList⟩

/-- A propensity-score entity keyed by `sampleApn` in `sampleZip`. -/
def samplePropensity : PropertyPropensityScore :=
  ⟨none, sampleApn, some sampleZip, ⟨500⟩⟩

/-- An address in `sampleZip`. -/
def sampleAddress : Address :=
  Address.new_in_usa
    (AddressLine.make "123".toList "Main".toList "St".toList StreetDirection.None)
    none (City.make "Plano".toList) (StateOrRegion.make "TX".toList) sampleZip

/-- A property record keyed by `sampleApn`. -/
def sampleProperty : Property :=
  ⟨none, sampleApn, sampleAddress, "Collin".toList, none,
    LandUseType.SingleFamilyResidential, none, none, none, none⟩

/-- A structurally valid CSV propensity row with no score value. -/
def sampleCsvRowNoScore : CsvPropertyPropensityScore :=
  ⟨"1234567".toList, none, none, none, none, none, none, none, none, none,
    none, none, none⟩

/-! ## Claims -/

/-- Claim C1: the claim (and the unit test `test_propensity_score_validation`)
say `PropensityScore::new` succeeds on [1, 950] and fails on 0 and on 951.
The code's validation attribute is `range(min = 0)` with no upper bound,
so the embedded constructor accepts 0, accepts 951, and indeed accepts
every value: the code contradicts its own test at 0 and at 951. -/
theorem propensity_score_new_accepts_everything :
    PropensityScore.new 0 = some ⟨0⟩ ∧ PropensityScore.new 951 = some ⟨951⟩ ∧
    ∀ v : Nat, PropensityScore.new v = some ⟨v⟩ := by
  refine ⟨by decide, by decide, ?_⟩
  intro v
  simp [PropensityScore.new, propensityRangeOk, propensityScoreMin, propensityScoreMax]

/-- Claim C7: a string of exactly five ASCII digits constructs a
`ZipOrPostalCode` whose display form equals the input; every other
string is rejected. -/
theorem zip_code_roundtrip_spec :
    ∀ s : List Char,
      ((s.length = 5 ∧ ∀ c ∈ s, isDigitCh c = true) →
        ZipOrPostalCode.new s = some ⟨s⟩ ∧
        (ZipOrPostalCode.new s).map ZipOrPostalCode.display = some s) ∧
      (¬(s.length = 5 ∧ ∀ c ∈ s, isDigitCh c = true) →
        ZipOrPostalCode.new s = none) := by
  intro s
  constructor
  · intro h
    have hm : zipCodeMatches s = true := by
      simp only [zipCodeMatches, h.1, decide_True, Bool.true_and, List.all_eq_true]
      exact h.2
    simp [ZipOrPostalCode.new, hm, ZipOrPostalCode.display]
  · intro h
    cases hm : zipCodeMatches s with
    | false => simp [ZipOrPostalCode.new, hm]
    | true =>
        exfalso
        apply h
        simp only [zipCodeMatches, Bool.and_eq_true, decide_eq_true_eq,
          List.all_eq_true] at hm
        exact hm

/-- Witness for C7 at "75075" (valid) and "7507a" (invalid). -/
theorem zip_code_roundtrip_witness :
    ZipOrPostalCode.new "75075".toList = some ⟨"75075".toList⟩ ∧
    ZipOrPostalCode.new "7507a".toList = none :=
  ⟨((zip_code_roundtrip_spec "75075".toList).1 (by decide)).1,
    (zip_code_roundtrip_spec "7507a".toList).2 (by decide)⟩

/-- Claim C3: ingesting the same valid property record twice against an
empty store: the first `save_record` saves, the second skips as a
duplicate without touching the store, and the store holds exactly one
record with that APN. -/
theorem property_ingest_twice_idempotent :
    ∀ record : Property,
      (savePropertyRecord record []).1 = PropertyRowOutcome.saved ∧
      (savePropertyRecord record (savePropertyRecord record []).2).1
        = PropertyRowOutcome.skippedDuplicate ∧
      (savePropertyRecord record (savePropertyRecord record []).2).2
        = (savePropertyRecord record []).2 ∧
      ((savePropertyRecord record []).2.filter
          (fun p => decide (p.apn = record.apn))).length = 1 := by
  intro record
  refine ⟨rfl, ?_, ?_, ?_⟩ <;>
    simp [savePropertyRecord, PropertyRecordRepository.find,
      PropertyRecordRepository.save, List.find?, List.filter]

/-- Claim C5: a parsed propensity row lacking a score is terminal
`skipped-missing-score`, lands in the missing-scores quality bucket,
and the row's processing does not depend on the translator at all (so
translation is never invoked on it). -/
theorem missing_score_skips_translation :
    ∀ (t₁ t₂ : CsvPropertyPropensityScore → Except Unit (Option PropertyPropensityScore))
      (row : CsvPropertyPropensityScore) (idx : Nat) (props : List Property)
      (st : PropensityLoadState),
      row.propensity_score = none →
      processPropensityRow t₁ (Except.ok row) idx props st
        = processPropensityRow t₂ (Except.ok row) idx props st ∧
      (processPropensityRow t₁ (Except.ok row) idx props st).1
        = RowOutcome.skippedMissingScore ∧
      (processPropensityRow t₁ (Except.ok row) idx props st).2.quality.missing_scores
        = st.quality.missing_scores ++ [idx] := by
  intro t₁ t₂ row idx props st h
  simp [processPropensityRow, h]

/-- Witness for C5 at a concrete scoreless row. -/
theorem missing_score_skips_translation_witness :
    (processPropensityRow CsvPropertyPropensityScore.tryIntoScore
        (Except.ok sampleCsvRowNoScore) 1 [] ⟨[], PropensityQuality.empty, []⟩).1
      = RowOutcome.skippedMissingScore :=
  (missing_score_skips_translation CsvPropertyPropensityScore.tryIntoScore
    CsvPropertyPropensityScore.tryIntoScore sampleCsvRowNoScore 1 []
    ⟨[], PropensityQuality.empty, []⟩ rfl).2.1

/-- Claim C8: a propensity record whose APN is in neither table is
still saved (the failed cross-reference does not block the save) and is
added to the "not in core properties" diagnostic of the quality
report. -/
theorem unmatched_propensity_saved_and_flagged :
    ∀ (record : PropertyPropensityScore) (idx : Nat) (props : List Property)
      (st : PropensityLoadState),
      PropertyPropensityScoreRepository.find_for_apn st.store record.apn = none →
      PropertyRecordRepository.find props record.apn = none →
      (savePropensityRecord record idx props st).1 = RowOutcome.saved ∧
      (savePropensityRecord record idx props st).2.store
        = st.store ++ [{ record with id := some (st.store.length + 1) }] ∧
      (savePropensityRecord record idx props st).2.quality.not_in_core_properties
        = st.quality.not_in_core_properties ++ [record] := by
  intro record idx props st h1 h2
  simp [savePropensityRecord, h1, h2, PropertyPropensityScoreRepository.save]

/-- Witness for C8 at a concrete record against empty tables. -/
theorem unmatched_propensity_witness :
    (savePropensityRecord samplePropensity 1 [] ⟨[], PropensityQuality.empty, []⟩).1
      = RowOutcome.saved :=
  (unmatched_propensity_saved_and_flagged samplePropensity 1 []
    ⟨[], PropensityQuality.empty, []⟩ rfl rfl).1

/-- Claim C4: `AssessorParcelNumber::new` succeeds exactly when the
input contains a digit-bounded run of digits and hyphens (length ≥ 2)
and the hyphen-stripped input has at most 14 characters; on success the
canonical value is the hyphen-stripped input left-zero-padded to 14. -/
theorem apn_new_spec :
    ∀ s : List Char,
      ((AssessorParcelNumber.new s).isSome = true ↔
        ContainsDigitRun s ∧ (stripHyphens s).length ≤ 14) ∧
      (∀ a : AssessorParcelNumber, AssessorParcelNumber.new s = some a →
        a.apn = List.replicate (14 - (stripHyphens s).length) '0' ++ stripHyphens s) := by
  intro s
  constructor
  · constructor
    · intro h
      obtain ⟨a, ha⟩ := Option.isSome_iff_exists.mp h
      obtain ⟨v, hv, _⟩ := Option.map_eq_some'.mp ha
      obtain ⟨hrun, hlen, _⟩ := check_apn_some_inv hv
      exact ⟨digitRun_of_containsApnRun s hrun, hlen⟩
    · intro h
      have hc := check_apn_some (containsApnRun_of_digitRun s h.1) h.2
      simp [AssessorParcelNumber.new, hc]
  · intro a ha
    obtain ⟨v, hv, hav⟩ := Option.map_eq_some'.mp ha
    obtain ⟨_, _, hveq⟩ := check_apn_some_inv hv
    rw [← hav]
    exact hveq

/-- Witness for C4: the canonical value of "123-456". -/
theorem apn_new_spec_witness :
    ("00000000123456".toList : List Char)
      = List.replicate (14 - (stripHyphens "123-456".toList).length) '0'
          ++ stripHyphens "123-456".toList :=
  (apn_new_spec "123-456".toList).2 ⟨"00000000123456".toList⟩ (by decide)

/-- Claim C9: APN canonicalization is idempotent: any canonical value
produced by `check_apn` is a fixed point of `check_apn`. -/
theorem apn_canonicalization_idempotent :
    ∀ s v : List Char, AssessorParcelNumber.check_apn s = some v →
      AssessorParcelNumber.check_apn v = some v := by
  intro s v h
  obtain ⟨hrun, hlen, hv⟩ := check_apn_some_inv h
  have hdr2 : ContainsDigitRun v := by
    rw [hv]
    exact digitRun_strip (digitRun_of_containsApnRun s hrun) _
  have hnh : ∀ c ∈ v, ¬c = '-' := by
    intro c hc
    rw [hv] at hc
    rcases List.mem_append.mp hc with hc | hc
    · have hc0 := List.eq_of_mem_replicate hc
      subst hc0
      decide
    · exact stripHyphens_ne_hyphen hc
  have hsv : stripHyphens v = v := stripHyphens_noHyphen hnh
  have hlv : v.length = 14 := by
    rw [hv]
    simp only [List.length_append, List.length_replicate]
    omega
  rw [check_apn_some (containsApnRun_of_digitRun v hdr2) (by simp [hsv, hlv])]
  simp [hsv, hlv]

/-- Witness for C9: the canonical form of "123-456" is a fixed point. -/
theorem apn_canonicalization_idempotent_witness :
    AssessorParcelNumber.check_apn "00000000123456".toList
      = some "00000000123456".toList :=
  apn_canonicalization_idempotent "123-456".toList "00000000123456".toList (by decide)

/-- Counterexample to claim C10 as stated: "123456789012345" (fifteen
digits) contains a two-ended digit run, yet `AssessorParcelNumber::new`
rejects it, because the hyphen-stripped input exceeds the 14-character
canonical width. -/
theorem apn_unanchored_counterexample :
    containsApnRun "123456789012345".toList = true ∧
    AssessorParcelNumber.new "123456789012345".toList = none := by
  decide

/-- Claim C10 as amended: `new` accepts every input containing a
two-ended digit run *whose hyphen-stripped form has length ≤ 14*, even
when other characters are alphabetic; the canonical value strips only
hyphens (retaining all other characters) and left-zero-pads to 14, so
"AB-12" canonicalizes to "0000000000AB12". -/
theorem apn_unanchored_amended :
    AssessorParcelNumber.new "AB-12".toList = some ⟨"0000000000AB12".toList⟩ ∧
    ∀ s : List Char, ContainsDigitRun s → (stripHyphens s).length ≤ 14 →
      AssessorParcelNumber.new s
        = some ⟨List.replicate (14 - (stripHyphens s).length) '0' ++ stripHyphens s⟩ := by
  constructor
  · decide
  · intro s hdr hlen
    simp [AssessorParcelNumber.new,
      check_apn_some (containsApnRun_of_digitRun s hdr) hlen]

/-- Witness for the amended C10 at "AB-12". -/
theorem apn_unanchored_amended_witness :
    AssessorParcelNumber.new "AB-12".toList
      = some ⟨List.replicate (14 - (stripHyphens "AB-12".toList).length) '0'
          ++ stripHyphens "AB-12".toList⟩ :=
  apn_unanchored_amended.2 "AB-12".toList
    ⟨['A', 'B', '-'], '1', [], '2', [], by decide, by decide, by decide, by simp⟩
    (by decide)

/-! ## Helper lemmas: ranked-lookup sort membership -/

theorem mem_insertByScoreDesc {x y : PropertyPropensityScore × Property} :
    ∀ l, y ∈ insertByScoreDesc x l → y = x ∨ y ∈ l := by
  intro l
  induction l with
  | nil =>
      intro h
      simp only [insertByScoreDesc] at h
      exact Or.inl (List.mem_singleton.mp h)
  | cons z zs ih =>
      intro h
      simp only [insertByScoreDesc] at h
      split at h
      · rcases List.mem_cons.mp h with h | h
        · exact Or.inl h
        · exact Or.inr h
      · rcases List.mem_cons.mp h with h | h
        · exact Or.inr (by simp [h])
        · rcases ih h with h | h
          · exact Or.inl h
          · exact Or.inr (List.mem_cons_of_mem z h)

theorem mem_sortByScoreDesc {y : PropertyPropensityScore × Property} :
    ∀ l, y ∈ sortByScoreDesc l → y ∈ l := by
  intro l
  induction l with
  | nil => intro h; simp [sortByScoreDesc] at h
  | cons x xs ih =>
      intro h
      rcases mem_insertByScoreDesc _ h with h | h
      · simp [h]
      · exact List.mem_cons_of_mem x (ih h)

/-- Counterexample to claim C2 as stated: a propensity row in the
requested zip whose APN has no property record does NOT appear in the
ranked lookup paired with a null address — the inner join excludes it,
and the result is empty. -/
theorem ranked_lookup_counterexample :
    PropertyPropensityScoreRepository.find_address_scores_for_zip_code
      [] [samplePropensity] sampleZip 10 = [] := rfl

/-- Claim C2 as amended: the ranked lookup inner-joins propensity rows
to property records, so a propensity row with no matching property is
excluded from the result, and every returned pair carries `Some`
address (a null address is never produced). -/
theorem ranked_lookup_inner_join_amended :
    ∀ (props : List Property) (propens : List PropertyPropensityScore)
      (zip : ZipOrPostalCode) (limit : Nat),
      (∀ x ∈ PropertyPropensityScoreRepository.find_address_scores_for_zip_code
          props propens zip limit, x.2.isSome = true) ∧
      (∀ pr : PropertyPropensityScore, (∀ p ∈ props, ¬p.apn = pr.apn) →
        ∀ x ∈ PropertyPropensityScoreRepository.find_address_scores_for_zip_code
            props propens zip limit, ¬x.1 = pr) := by
  intro props propens zip limit
  constructor
  · intro x hx
    obtain ⟨y, _, hyx⟩ := List.mem_map.mp hx
    rw [← hyx]
    rfl
  · intro pr hpr x hx hxp
    obtain ⟨y, hy, hyx⟩ := List.mem_map.mp hx
    have hy3 := mem_sortByScoreDesc _ (List.mem_of_mem_take hy)
    simp only [joinOnApnForZip, List.mem_flatMap, List.mem_map] at hy3
    obtain ⟨pr', hpr', p, hp, hpy⟩ := hy3
    have hp2 := List.mem_of_mem_filter hp
    have hpa : p.apn = pr'.apn := by simpa using List.of_mem_filter hp
    rw [← hyx] at hxp
    simp only at hxp
    rw [← hpy] at hxp
    simp only at hxp
    exact hpr p hp2 (by rw [hpa, hxp])

/-- Witness for the amended C2 at a joined concrete pair. -/
theorem ranked_lookup_amended_witness :
    ((samplePropensity, some sampleAddress) :
        PropertyPropensityScore × Option Address).2.isSome = true :=
  (ranked_lookup_inner_join_amended [sampleProperty] [samplePropensity]
    sampleZip 10).1 (samplePropensity, some sampleAddress) (by decide)

/-! ## Helper lemma: first match of find? -/

theorem find_first_decomp {α : Type} (p : α → Bool) :
    ∀ (l : List α) (a : α), l.find? p = some a →
      ∃ l₁ l₂, l = l₁ ++ a :: l₂ ∧ p a = true ∧ ∀ x ∈ l₁, p x = false := by
  intro l
  induction l with
  | nil => intro a h; simp [List.find?] at h
  | cons c cs ih =>
      intro a h
      cases hc : p c with
      | true =>
          rw [List.find?_cons_of_pos _ hc] at h
          obtain rfl := Option.some.inj h
          exact ⟨[], cs, rfl, hc, by simp⟩
      | false =>
          rw [List.find?_cons_of_neg _ (by simp [hc])] at h
          obtain ⟨l₁, l₂, he, hpa, hall⟩ := ih a h
          refine ⟨c :: l₁, l₂, by simp [he], hpa, ?_⟩
          intro x hx
          cases hx with
          | head => exact hc
          | tail _ hx => exact hall x hx

/-- Claim C6: the land-use classifier tries the fixed priority-ordered
`TYPE_PATTERNS` list, each pattern set case-insensitive and matched
against any substring, and returns the first matching category; no
match is a failure carrying the original text.  "Single Family
Residential", "single residential" and "SINGLE FAMILY RESIDENTIAL" all
classify to `SingleFamilyResidential`; "Treehouse" fails. -/
theorem land_use_classifier_spec :
    (LandUseType.tryFrom "Single Family Residential".toList
      = Except.ok LandUseType.SingleFamilyResidential) ∧
    (LandUseType.tryFrom "single residential".toList
      = Except.ok LandUseType.SingleFamilyResidential) ∧
    (LandUseType.tryFrom "SINGLE FAMILY RESIDENTIAL".toList
      = Except.ok LandUseType.SingleFamilyResidential) ∧
    (LandUseType.tryFrom "Treehouse".toList = Except.error "Treehouse".toList) ∧
    (∀ s : List Char, LandUseType.tryFrom s = Except.error s ↔
        ∀ tp ∈ typePatterns, categoryMatches tp.2 s = false) ∧
    (∀ (s : List Char) (t : LandUseType), LandUseType.tryFrom s = Except.ok t →
      ∃ l₁ l₂ pats, typePatterns = l₁ ++ (t, pats) :: l₂ ∧
        categoryMatches pats s = true ∧
        ∀ tp ∈ l₁, categoryMatches tp.2 s = false) := by
  refine ⟨rfl, rfl, rfl, rfl, ?_, ?_⟩
  · intro s
    constructor
    · intro h tp htp
      cases hf : typePatterns.find? (fun tp => categoryMatches tp.2 s) with
      | some tp2 => simp [LandUseType.tryFrom, hf] at h
      | none =>
          have := List.find?_eq_none.mp hf tp htp
          simpa using this
    · intro h
      have hf : typePatterns.find? (fun tp => categoryMatches tp.2 s) = none := by
        apply List.find?_eq_none.mpr
        intro x hx
        simp [h x hx]
      simp [LandUseType.tryFrom, hf]
  · intro s t h
    cases hf : typePatterns.find? (fun tp => categoryMatches tp.2 s) with
    | none => simp [LandUseType.tryFrom, hf] at h
    | some tp =>
        simp only [LandUseType.tryFrom, hf] at h
        obtain ⟨l₁, l₂, he, hp, hall⟩ := find_first_decomp _ typePatterns tp hf
        obtain ⟨a, b⟩ := tp
        have ht : a = t := by simp only [Except.ok.injEq] at h; exact h
        subst ht
        exact ⟨l₁, l₂, b, he, by simpa using hp, hall⟩

/-- Witness for C6: no category pattern matches "xyz", so
classification fails carrying the input. -/
theorem land_use_classifier_witness :
    LandUseType.tryFrom "xyz".toList = Except.error "xyz".toList :=
  (land_use_classifier_spec.2.2.2.2.1 "xyz".toList).mpr (by decide)

end AddressPropensity
